import Mathlib

/-!
Verification of the DAST scanner core: the `Finding` record, the
`DASTReporter` collector, the authentication-state gate, and the
response-matching logic of the path-traversal, CORS and cookie-security
probes, shallowly embedded from the TypeScript sources.
-/

/-- Severity levels of a finding, from `Finding['severity']` in the source. -/
inductive Severity where
  | critical
  | high
  | medium
  | low
  | info
deriving DecidableEq, Repr

/-- The `Finding` interface: one discovered issue. Optional fields of the
TypeScript interface become `Option String`. -/
structure Finding where
  severity : Severity
  title : String
  description : String
  url : String
  payload : Option String := none
  evidence : Option String := none
  cwe : Option String := none
  owasp : Option String := none
  recommendation : String
deriving DecidableEq, Repr

/-- The mutable state of a `DASTReporter`: its private `findings` array. -/
structure DASTReporterState where
  findings : List Finding
deriving DecidableEq, Repr

namespace DASTReporter

/-- A freshly constructed reporter: `private findings: Finding[] = []`. -/
def new : DASTReporterState := ⟨[]⟩

/-- Method `addFinding(finding) { this.findings.push(finding); }`:
`Array.push` appends at the end. -/
def addFinding (s : DASTReporterState) (f : Finding) : DASTReporterState :=
  ⟨s.findings ++ [f]⟩

/-- Method `getFindings(): Finding[] { return this.findings; }`, as a state
transformer returning the result together with the state after the call. -/
def getFindingsOp (s : DASTReporterState) : List Finding × DASTReporterState :=
  (s.findings, s)

/-- The value returned by `getFindings()`. -/
def getFindings (s : DASTReporterState) : List Finding :=
  (getFindingsOp s).1

/-- Method `getFindingsBySeverity(severity) { return this.findings.filter(f =>
f.severity === severity); }`, as a state transformer. -/
def getFindingsBySeverityOp (s : DASTReporterState) (sev : Severity) :
    List Finding × DASTReporterState :=
  (s.findings.filter (fun f => f.severity == sev), s)

/-- The value returned by `getFindingsBySeverity(severity)`. -/
def getFindingsBySeverity (s : DASTReporterState) (sev : Severity) : List Finding :=
  (getFindingsBySeverityOp s sev).1

/-- Method `hasFindings(): boolean { return this.findings.length > 0; }`,
as a state transformer. -/
def hasFindingsOp (s : DASTReporterState) : Bool × DASTReporterState :=
  (decide (s.findings.length > 0), s)

/-- The value returned by `hasFindings()`. -/
def hasFindings (s : DASTReporterState) : Bool :=
  (hasFindingsOp s).1

/-- The template literal of `generateSummary()` with the interpolated counts,
including the `.trim()` call on the surrounding whitespace. -/
def summaryText (critical high medium low info total : Nat) : String :=
  ("\nDAST Scan Summary\n=================\nCritical: " ++ toString critical
    ++ "\nHigh:     " ++ toString high
    ++ "\nMedium:   " ++ toString medium
    ++ "\nLow:      " ++ toString low
    ++ "\nInfo:     " ++ toString info
    ++ "\nTotal:    " ++ toString total
    ++ "\n    ").trim

/-- Method `generateSummary()`: the five per-severity counts are obtained
through `getFindingsBySeverity(...).length` and `Total` through
`this.findings.length`, then interpolated into the fixed template. -/
def generateSummary (s : DASTReporterState) : String :=
  let critical := (getFindingsBySeverity s .critical).length
  let high := (getFindingsBySeverity s .high).length
  let medium := (getFindingsBySeverity s .medium).length
  let low := (getFindingsBySeverity s .low).length
  let info := (getFindingsBySeverity s .info).length
  summaryText critical high medium low info s.findings.length

/-- The `generateSummary()` call as a state transformer. -/
def generateSummaryOp (s : DASTReporterState) : String × DASTReporterState :=
  (generateSummary s, s)

/-- A reporter built by a finite sequence of `addFinding` calls starting
from a fresh instance. -/
def runCalls (calls : List Finding) : DASTReporterState :=
  calls.foldl addFinding new

end DASTReporter

/-- The five severities in the fixed order used by `generateSummary`. -/
def allSeverities : List Severity :=
  [.critical, .high, .medium, .low, .info]

/-! String helpers modelling the JavaScript operations used by the probes:
substring search (regex literals over fixed strings, `String.includes`),
lower-casing, and truthiness of an optional string. -/

/-- Whether `pat` occurs at the head of `hay` (character lists). -/
def lstLeads : List Char → List Char → Bool
  | _, [] => true
  | [], _ :: _ => false
  | a :: as, b :: bs => a == b && lstLeads as bs

/-- Whether `pat` occurs somewhere inside `hay` (character lists). -/
def lstHas : List Char → List Char → Bool
  | [], pat => pat.isEmpty
  | hay@(_ :: t), pat => lstLeads hay pat || lstHas t pat

/-- Whether the string `pat` occurs as a contiguous substring of `hay`;
models a JavaScript regular expression that is a plain literal, and
`String.prototype.includes`. -/
def containsStr (hay pat : String) : Bool :=
  lstHas hay.toList pat.toList

/-- Character-wise lower-casing, modelling `String.prototype.toLowerCase`
and the `i` flag of a regular expression over a plain literal. -/
def lowerStr (s : String) : String :=
  String.mk (s.toList.map Char.toLower)

/-- Whether `pre` occurs at the head of `s`; models
`String.prototype.startsWith`. -/
def startsWithStr (s pre : String) : Bool :=
  lstLeads s.toList pre.toList

/-- JavaScript truthiness of a possibly-undefined string: `!x` is true
exactly when `x` is `undefined` or the empty string. -/
def strFalsy : Option String → Bool
  | none => true
  | some v => v == ""

/-! Authentication state gate, from `src/dast/auth.setup.ts`. -/

/-- The freshness window `authExpiryMs = 60 * 60 * 1000` (milliseconds). -/
def authExpiryMs : Int := 60 * 60 * 1000

/-- The outcome of the `setup('Verify authentication state')` block: either
a thrown error message or the logged age of the snapshot file. -/
def verifyAuthState (fileExists : Bool) (nowMs mtimeMs : Int) : Except String Int :=
  if !fileExists then
    .error "\n\nNo authentication found. Run: ./scripts/run-dast.sh auth\n"
  else
    let fileAge := nowMs - mtimeMs
    if fileAge ≥ authExpiryMs then
      .error "\n\nAuthentication expired. Run: ./scripts/run-dast.sh auth\n"
    else
      .ok fileAge

/-! Path-traversal probe, from the test
`Check for path traversal in URL parameters`. -/

/-- The observable part of an HTTP response used by the probes: its status
code and body text. -/
structure HttpResp where
  status : Nat
  body : String
deriving DecidableEq, Repr

/-- Upper-case hexadecimal digit of a value below 16. -/
def hexDigit (n : Nat) : Char :=
  if n < 10 then Char.ofNat (48 + n) else Char.ofNat (55 + n)

/-- UTF-8 byte sequence of a single character. -/
def utf8Bytes (c : Char) : List Nat :=
  let n := c.toNat
  if n < 0x80 then [n]
  else if n < 0x800 then [0xC0 + n / 64, 0x80 + n % 64]
  else if n < 0x10000 then [0xE0 + n / 4096, 0x80 + (n / 64) % 64, 0x80 + n % 64]
  else [0xF0 + n / 262144, 0x80 + (n / 4096) % 64, 0x80 + (n / 64) % 64, 0x80 + n % 64]

/-- Characters left unescaped by `encodeURIComponent`. -/
def uriUnescaped (c : Char) : Bool :=
  c.isAlpha || c.isDigit ||
    c ∈ ['-', '_', '.', '!', '~', '*', Char.ofNat 39, '(', ')']

/-- JavaScript `encodeURIComponent`: every character outside the unescaped
set is replaced by the percent-encoding of its UTF-8 bytes. -/
def encodeURIComponent (s : String) : String :=
  String.mk (s.toList.flatMap fun c =>
    if uriUnescaped c then [c]
    else (utf8Bytes c).flatMap fun b => ['%', hexDigit (b / 16), hexDigit (b % 16)])

/-- A detection signal of the probe: the printed form of the regular
expression literal and its matching function on the response body. -/
structure SigPattern where
  printed : String
  test : String → Bool

/-- The `sensitiveFilePatterns` array of the path-traversal test. Each
regular expression is a plain literal (case-insensitive under the `i` flag),
except `/<?xml/i` where `<?` makes the `<` optional, so it matches any body
containing `xml`. -/
def sensitiveFilePatterns : List SigPattern :=
  [⟨"/root:x:0:0:/", fun b => containsStr b "root:x:0:0:"⟩,
   ⟨"/daemon:x:1:1:/", fun b => containsStr b "daemon:x:1:1:"⟩,
   ⟨"/nobody:x:/", fun b => containsStr b "nobody:x:"⟩,
   ⟨"/\\[boot loader\\]/i", fun b => containsStr (lowerStr b) "[boot loader]"⟩,
   ⟨"/\\[operating systems\\]/i", fun b => containsStr (lowerStr b) "[operating systems]"⟩,
   ⟨"/<?xml/i", fun b => containsStr (lowerStr b) "xml"⟩,
   ⟨"/<configuration>/i", fun b => containsStr (lowerStr b) "<configuration>"⟩,
   ⟨"/<connectionStrings>/i", fun b => containsStr (lowerStr b) "<connectionstrings>"⟩,
   ⟨"/DEBUG/i", fun b => containsStr (lowerStr b) "debug"⟩,
   ⟨"/LOG/", fun b => containsStr b "LOG"⟩]

/-- Findings appended by one payload attempt of the path-traversal probe,
given the response: on `status === 200 && body.length > 0` the inner loop
scans `sensitiveFilePatterns` and breaks after the first match, so at
most the first matching pattern produces a finding. -/
def pathTraversalAttemptFindings (testUrl payload : String) (resp : HttpResp) :
    List Finding :=
  if resp.status == 200 && resp.body.length > 0 then
    match sensitiveFilePatterns.find? (fun p => p.test resp.body) with
    | some p =>
        [{ severity := .critical,
           title := "Path Traversal Vulnerability",
           description := "Sensitive file content accessible via path traversal",
           url := testUrl,
           payload := some payload,
           evidence := some ("Sensitive content pattern matched: " ++ p.printed),
           cwe := some "CWE-22",
           owasp := some "A01:2021 - Broken Access Control",
           recommendation := "Validate file paths against a whitelist and use safe file access methods" }]
    | none => []
  else []

/-- The nested loop of the path-traversal probe over `(baseUrl, payload)`
pairs, threading the reporter state. The environment `oracle` gives the
outcome of `request.get(testUrl)`: a response, or a thrown transport error,
which the try/catch swallows before moving to the next combination. -/
def pathTraversalRunFrom (rep : List Finding)
    (attempts : List (String × String))
    (oracle : String → Except Unit HttpResp) : List Finding :=
  match attempts with
  | [] => rep
  | (baseUrl, payload) :: rest =>
    let testUrl := baseUrl ++ encodeURIComponent payload
    match oracle testUrl with
    | .error _ => pathTraversalRunFrom rep rest oracle
    | .ok resp =>
        pathTraversalRunFrom (rep ++ pathTraversalAttemptFindings testUrl payload resp)
          rest oracle

/-! CORS probe, from the test `Check for overly permissive CORS`. -/

/-- The `testOrigins` array of the CORS probe. -/
def testOrigins : List String :=
  ["https://evil.com", "https://attacker.com", "https://null", "null"]

/-- The `sensitiveEndpoints` array of the CORS probe. -/
def sensitiveEndpoints : List String :=
  ["/", "/api", "/api/user", "/api/users", "/api/session", "/api/account"]

/-- Findings appended by one endpoint/origin attempt of the CORS probe,
given the response's `access-control-allow-origin` and
`access-control-allow-credentials` headers (absent headers are `none`):
first the `acao === '*'` check, then the reflected-origin-with-credentials
check, then the `acao === 'null'` check. -/
def corsCheckFindings (endpoint origin : String) (acao acac : Option String) :
    List Finding :=
  (if acao == some "*" then
    [{ severity := .high,
       title := "Overly Permissive CORS",
       description := "Access-Control-Allow-Origin header is set to *",
       url := endpoint,
       evidence := some "Access-Control-Allow-Origin: *",
       cwe := some "CWE-942",
       owasp := some "A01:2021 - Broken Access Control",
       recommendation := "Restrict CORS to specific trusted origins" }]
   else []) ++
  (if acao == some origin && acac == some "true" then
    [{ severity := .critical,
       title := "CORS Allows Arbitrary Origin with Credentials",
       description := "Server reflects arbitrary origin with credentials enabled",
       url := endpoint,
       evidence := some ("Origin: " ++ origin ++ ", ACAO: " ++ acao.getD "undefined"
         ++ ", ACAC: " ++ acac.getD "undefined"),
       cwe := some "CWE-942",
       owasp := some "A01:2021 - Broken Access Control",
       recommendation := "Validate origin against a whitelist and avoid reflecting arbitrary origins" }]
   else []) ++
  (if acao == some "null" then
    [{ severity := .high,
       title := "CORS Allows Null Origin",
       description := "Server allows null origin which can be exploited via sandboxed iframes",
       url := endpoint,
       evidence := some "Access-Control-Allow-Origin: null",
       cwe := some "CWE-942",
       owasp := some "A01:2021 - Broken Access Control",
       recommendation := "Block null origin in CORS policy" }]
   else [])

/-! Cookie-security probe, from the test `Check cookie security flags`. -/

/-- A browser cookie as surfaced by `context.cookies()`: the fields the
probe inspects. `sameSite` is `none` when the attribute is undefined. -/
structure Cookie where
  name : String
  secure : Bool
  httpOnly : Bool
  sameSite : Option String
deriving DecidableEq, Repr

/-- The `issues` list collected for one cookie: a missing `Secure` flag on
an HTTPS page, a missing `HttpOnly` flag on a sensitive-looking cookie name,
and a missing or `None` `SameSite` attribute. -/
def cookieIssues (pageUrl : String) (c : Cookie) : List String :=
  (if !c.secure && startsWithStr pageUrl "https://" then
    ["Missing Secure flag"] else []) ++
  (if !c.httpOnly && (containsStr (lowerStr c.name) "session" ||
      containsStr (lowerStr c.name) "token" ||
      containsStr (lowerStr c.name) "auth") then
    ["Missing HttpOnly flag on sensitive cookie"] else []) ++
  (if strFalsy c.sameSite || c.sameSite == some "None" then
    ["Missing or lax SameSite attribute"] else [])

/-- Findings appended for one cookie by the cookie-security probe: when the
`issues` list is non-empty, exactly one medium finding whose evidence joins
the issues with a semicolon. -/
def cookieFindings (pageUrl : String) (c : Cookie) : List Finding :=
  let issues := cookieIssues pageUrl c
  if issues.length > 0 then
    [{ severity := .medium,
       title := "Insecure Cookie: " ++ c.name,
       description := "Cookie has security issues: " ++ String.intercalate ", " issues,
       url := pageUrl,
       evidence := some (String.intercalate "; " issues),
       cwe := some "CWE-614",
       owasp := some "A05:2021 - Security Misconfiguration",
       recommendation := "Set Secure, HttpOnly, and SameSite=Strict/Lax flags on cookies" }]
  else []

/-! File-upload probe, from the test `Check for unrestricted file upload`
in the file-upload suite. -/

/-- One entry of the `maliciousFiles` array: upload name, file content,
MIME type, and the statically associated risk (the source stores the risk
as one of the strings `critical`/`high`/`medium` and casts it to the
severity type when building a finding). -/
structure MaliciousFile where
  name : String
  content : String
  type : String
  risk : Severity
deriving DecidableEq, Repr

/-- The `maliciousFiles` array of the upload probe. -/
def maliciousFiles : List MaliciousFile :=
  [⟨"shell.php", "<?php system($_GET[\"cmd\"]); ?>", "application/x-php", .critical⟩,
   ⟨"shell.jsp", "<% Runtime.getRuntime().exec(request.getParameter(\"cmd\")); %>",
     "application/x-jsp", .critical⟩,
   ⟨"shell.asp", "<% eval request(\"cmd\") %>", "application/x-asp", .critical⟩,
   ⟨"shell.aspx",
     "<%@ Page Language=\"C#\" %><% System.Diagnostics.Process.Start(Request[\"cmd\"]); %>",
     "application/x-aspx", .critical⟩,
   ⟨"malicious.html", "<script>alert(\"XSS\")</script>", "text/html", .high⟩,
   ⟨"malicious.svg", "<svg xmlns=\"http://www.w3.org/2000/svg\" onload=\"alert(1)\"/>",
     "image/svg+xml", .high⟩,
   ⟨"malicious.pdf",
     "%PDF-1.4\n1 0 obj\n<<\n/Type /Catalog\n/Pages 2 0 R\n/OpenAction 3 0 R\n>>\nendobj\n2 0 obj\n<<\n/Type /Pages\n/Kids []\n/Count 0\n>>\nendobj\n3 0 obj\n<<\n/S /JavaScript\n/JS (app.alert(\"XSS\"))\n>>\nendobj\nxref\n0 4\n0000000000 65535 f\n0000000009 00000 n\n0000000058 00000 n\n0000000115 00000 n\ntrailer\n<<\n/Size 4\n/Root 1 0 R\n>>\nstartxref\n190\n%%EOF",
     "application/pdf", .medium⟩,
   ⟨"double_extension.php.jpg", "<?php system($_GET[\"cmd\"]); ?>", "image/jpeg", .high⟩,
   ⟨"null_byte.php%00.jpg", "<?php echo \"shell\"; ?>", "image/jpeg", .high⟩,
   ⟨".htaccess", "AddType application/x-httpd-php .jpg\nphp_flag engine on",
     "text/plain", .critical⟩]

/-- The `uploadEndpoints` array of the upload probe. -/
def uploadEndpoints : List String :=
  ["/upload", "/api/upload", "/api/files", "/files/upload", "/attachments"]

/-- First-occurrence de-duplication with an accumulator of already-seen
elements; models `[...new Set(urls)]`, which keeps insertion order. -/
def dedupFirstAux (seen : List String) : List String → List String
  | [] => []
  | x :: rest =>
    if seen.contains x then dedupFirstAux seen rest
    else x :: dedupFirstAux (x :: seen) rest

/-- The `uniqueEndpoints` computation: form actions (empty action falls
back to `/upload`) followed by the fixed endpoints, de-duplicated. -/
def uploadUniqueEndpoints (formActions : List String) : List String :=
  dedupFirstAux [] ((formActions.map fun a => if a == "" then "/upload" else a)
    ++ uploadEndpoints)

/-- Whether a character is one of the two quote characters of the
`["']` character class. -/
def isQuoteCh (c : Char) : Bool :=
  c == '"' || c == Char.ofNat 39

/-- The `exec` loop of one `fileUrlUrls` regular expression
`["'](\/[^"']*K\/[^"']*)["']/gi` over the body: a match opens at a quote,
its group is the quote-free span up to the next quote (the greedy
`[^"']*`s), the group must start with `/` and contain one of the
keyword-plus-slash needles (case-insensitively), and the search resumes
after the closing quote of a match, or one character further on failure. -/
def regexScan (needles : List (List Char)) : List Char → List (List Char)
  | [] => []
  | c :: rest =>
    if isQuoteCh c then
      let span := rest.takeWhile fun ch => !isQuoteCh ch
      match h : rest.drop span.length with
      | [] => []
      | _ :: afterQ =>
        if (match span with | '/' :: _ => true | _ => false) &&
            needles.any (fun n => lstHas (span.map Char.toLower) n) then
          span :: regexScan needles afterQ
        else
          regexScan needles rest
    else
      regexScan needles rest
termination_by l => l.length
decreasing_by
  · have hlen := congrArg List.length h
    simp only [List.length_drop, List.length_cons] at hlen ⊢
    omega
  · simp
  · simp

/-- The needle lists of the six `fileUrlUrls` patterns, in source order:
`uploads?`, `files?`, `attachments?`, `storage`, `media`, `assets`, each
followed by the literal `/`. -/
def fileUrlNeedles : List (List (List Char)) :=
  [["upload/".toList, "uploads/".toList],
   ["file/".toList, "files/".toList],
   ["attachment/".toList, "attachments/".toList],
   ["storage/".toList],
   ["media/".toList],
   ["assets/".toList]]

/-- Helper `fileUrlUrls(responseBody, filename)`: the groups captured by
the six patterns over the body, then the three fixed
`/uploads|files|attachments/filename` guesses, de-duplicated. -/
def fileUrlUrls (responseBody filename : String) : List String :=
  dedupFirstAux []
    ((fileUrlNeedles.flatMap fun needles =>
        (regexScan needles responseBody.toList).map String.mk)
      ++ ["/uploads/" ++ filename, "/files/" ++ filename, "/attachments/" ++ filename])

/-- The multipart request body built for one upload attempt, with the given
random boundary suffix: the six lines joined by CRLF. -/
def multipartBody (boundary : String) (file : MaliciousFile) : String :=
  String.intercalate "\r\n"
    ["------" ++ boundary,
     "Content-Disposition: form-data; name=\"file\"; filename=\"" ++ file.name ++ "\"",
     "Content-Type: " ++ file.type,
     "",
     file.content,
     "------" ++ boundary ++ "--"]

/-- The `successIndicators` array for one file. -/
def uploadSuccessIndicators (file : MaliciousFile) : List String :=
  ["upload successful", "file uploaded", "success", "200", "location", lowerStr file.name]

/-- The inner file-access loop of the upload attempt: for each candidate
URL, `request.get` it (a thrown transport error is swallowed by the inner
catch and the loop continues); on a 200 response whose body contains the
first thirty characters of the uploaded content, append the critical/high/
medium `Unrestricted File Upload` finding. -/
def uploadFileAccessFindings (endpoint : String) (file : MaliciousFile)
    (getOracle : String → Except Unit HttpResp) : List String → List Finding
  | [] => []
  | fileUrl :: rest =>
    (match getOracle fileUrl with
     | .error _ => []
     | .ok fr =>
       if fr.status == 200 then
         if containsStr fr.body (String.mk (file.content.toList.take 30)) then
           [{ severity := file.risk,
              title := "Unrestricted File Upload",
              description := "Server accepts and stores executable file \"" ++ file.name ++ "\"",
              url := endpoint,
              evidence := some ("File accessible at: " ++ fileUrl),
              cwe := some "CWE-434",
              owasp := some "A01:2021 - Broken Access Control",
              recommendation := "Validate file extensions, MIME types, and content. Store uploads outside web root." }]
         else []
       else []) ++ uploadFileAccessFindings endpoint file getOracle rest

/-- Findings appended by one endpoint/file attempt of the upload probe
after a successful POST: the file-access loop over `fileUrlUrls`, then the
`isSuccess`-gated high `Potential Unrestricted File Upload` finding for
critical/high-risk files (`isSuccess` is true whenever the status is 200
or 201, or the lowered body contains one of the indicators). -/
def uploadAttemptFindings (endpoint : String) (file : MaliciousFile) (resp : HttpResp)
    (getOracle : String → Except Unit HttpResp) : List Finding :=
  let responseBody := resp.body
  let isSuccess := (uploadSuccessIndicators file).any fun ind =>
    containsStr (lowerStr responseBody) ind || resp.status == 201 || resp.status == 200
  uploadFileAccessFindings endpoint file getOracle (fileUrlUrls responseBody file.name) ++
    (if isSuccess && (file.risk == Severity.critical || file.risk == Severity.high) then
      [{ severity := .high,
         title := "Potential Unrestricted File Upload",
         description := "Server accepted potentially dangerous file \"" ++ file.name ++ "\"",
         url := endpoint,
         evidence := some ("Response status: " ++ toString resp.status),
         cwe := some "CWE-434",
         owasp := some "A01:2021 - Broken Access Control",
         recommendation := "Implement strict file type validation and content inspection" }]
    else [])

/-- The outer loop of the upload probe over endpoint/file attempts, each
carrying its random boundary suffix, threading the reporter state.
`postOracle` gives the outcome of `request.post` of the multipart body
against the endpoint together with reading the response text; a thrown
transport error is swallowed by the outer catch and the loop continues with
the next combination. -/
def uploadRunFrom (rep : List Finding)
    (attempts : List (String × MaliciousFile × String))
    (postOracle : String → String → Except Unit HttpResp)
    (getOracle : String → Except Unit HttpResp) : List Finding :=
  match attempts with
  | [] => rep
  | (endpoint, file, boundary) :: rest =>
    match postOracle endpoint (multipartBody boundary file) with
    | .error _ => uploadRunFrom rep rest postOracle getOracle
    | .ok resp =>
        uploadRunFrom (rep ++ uploadAttemptFindings endpoint file resp getOracle)
          rest postOracle getOracle

/-! Helper lemmas about the reporter. -/

theorem count_filter_severity_ne (l : List Finding) (a : Finding) (s : Severity)
    (h : a.severity ≠ s) : List.count a (l.filter fun f => f.severity == s) = 0 := by
  rw [List.count_eq_zero]
  intro hmem
  rw [List.mem_filter] at hmem
  exact h (by simpa using hmem.2)

theorem bySeverity_flatMap_perm (l : List Finding) :
    (allSeverities.flatMap fun s => l.filter fun f => f.severity == s).Perm l := by
  rw [List.perm_iff_count]
  intro a
  simp only [allSeverities, List.flatMap_cons, List.flatMap_nil, List.count_append,
    List.append_nil]
  cases ha : a.severity <;>
    simp [List.count_filter, ha, count_filter_severity_ne]

theorem length_filter_severity_sum (l : List Finding) :
    (l.filter fun f => f.severity == Severity.critical).length +
      (l.filter fun f => f.severity == Severity.high).length +
      (l.filter fun f => f.severity == Severity.medium).length +
      (l.filter fun f => f.severity == Severity.low).length +
      (l.filter fun f => f.severity == Severity.info).length = l.length := by
  have h := (bySeverity_flatMap_perm l).length_eq
  simp only [allSeverities, List.flatMap_cons, List.flatMap_nil, List.length_append,
    List.append_nil] at h
  omega

theorem foldl_addFinding_findings (calls : List Finding) (s : DASTReporterState) :
    (calls.foldl DASTReporter.addFinding s).findings = s.findings ++ calls := by
  induction calls generalizing s with
  | nil => simp
  | cons f t ih => simp [DASTReporter.addFinding, ih]

/-- A sample finding used to instantiate theorems at concrete inputs. -/
def exFindingA : Finding :=
  { severity := .critical, title := "A", description := "d", url := "/u",
    recommendation := "r" }

/-- A second sample finding with a different severity. -/
def exFindingB : Finding :=
  { severity := .high, title := "B", description := "d", url := "/v",
    recommendation := "r" }

/-- A sample reporter state holding the two sample findings. -/
def exReporter : DASTReporterState := ⟨[exFindingA, exFindingB]⟩

/-! Claim theorems. -/

/-- C1: for every reporter state and severity, `getFindingsBySeverity` is
exactly the severity-filtered subsequence of `getFindings()`, the
concatenation of the five per-severity results is a permutation of
`getFindings()` (no omission, no duplication), and results for two
different severities are disjoint, so every finding lands in exactly one
of the five results. -/
theorem spec_c1_bySeverity_partition (s : DASTReporterState) :
    (∀ sev : Severity, DASTReporter.getFindingsBySeverity s sev =
      (DASTReporter.getFindings s).filter fun f => f.severity == sev) ∧
    (allSeverities.flatMap fun sev =>
        DASTReporter.getFindingsBySeverity s sev).Perm (DASTReporter.getFindings s) ∧
    (∀ sev sev' : Severity, sev ≠ sev' → ∀ f : Finding,
      f ∈ DASTReporter.getFindingsBySeverity s sev →
      f ∉ DASTReporter.getFindingsBySeverity s sev') := by
  refine ⟨fun sev => rfl, bySeverity_flatMap_perm s.findings, ?_⟩
  intro sev sev' hne f hmem hmem'
  simp only [DASTReporter.getFindingsBySeverity, DASTReporter.getFindingsBySeverityOp,
    List.mem_filter] at hmem hmem'
  have h1 : f.severity = sev := by simpa using hmem.2
  have h2 : f.severity = sev' := by simpa using hmem'.2
  exact hne (h1.symm.trans h2)

/-- Witness for C1: on a concrete reporter, a critical finding is not in the
high-severity result. -/
theorem spec_c1_witness :
    exFindingA ∉ DASTReporter.getFindingsBySeverity exReporter Severity.high :=
  (spec_c1_bySeverity_partition exReporter).2.2 Severity.critical Severity.high
    (by decide) exFindingA (by decide)

/-- C2: for every reporter state, `generateSummary()` is the fixed template
applied to the five `getFindingsBySeverity` counts in the order critical,
high, medium, low, info, followed by a `Total` equal to
`getFindings().length`, and nothing else; moreover the total is the sum of
the five counts. -/
theorem spec_c2_summary_counts (s : DASTReporterState) :
    DASTReporter.generateSummary s =
      DASTReporter.summaryText
        (DASTReporter.getFindingsBySeverity s .critical).length
        (DASTReporter.getFindingsBySeverity s .high).length
        (DASTReporter.getFindingsBySeverity s .medium).length
        (DASTReporter.getFindingsBySeverity s .low).length
        (DASTReporter.getFindingsBySeverity s .info).length
        (DASTReporter.getFindings s).length ∧
    (DASTReporter.getFindings s).length =
      (DASTReporter.getFindingsBySeverity s .critical).length +
        (DASTReporter.getFindingsBySeverity s .high).length +
        (DASTReporter.getFindingsBySeverity s .medium).length +
        (DASTReporter.getFindingsBySeverity s .low).length +
        (DASTReporter.getFindingsBySeverity s .info).length :=
  ⟨rfl, (length_filter_severity_sum s.findings).symm⟩

/-- C3: the authentication gate has exactly three outcomes: the absent
error when the snapshot file does not exist, success when the age is
strictly below sixty minutes, and the expired error when the age is at
least sixty minutes (so an age of exactly sixty minutes is expired). -/
theorem spec_c3_auth_gate (fileExists : Bool) (nowMs mtimeMs : Int) :
    (fileExists = false → verifyAuthState fileExists nowMs mtimeMs =
      .error "\n\nNo authentication found. Run: ./scripts/run-dast.sh auth\n") ∧
    (fileExists = true → nowMs - mtimeMs < authExpiryMs →
      verifyAuthState fileExists nowMs mtimeMs = .ok (nowMs - mtimeMs)) ∧
    (fileExists = true → authExpiryMs ≤ nowMs - mtimeMs →
      verifyAuthState fileExists nowMs mtimeMs =
        .error "\n\nAuthentication expired. Run: ./scripts/run-dast.sh auth\n") := by
  refine ⟨?_, ?_, ?_⟩
  · intro h; simp [verifyAuthState, h]
  · intro h hlt; simp [verifyAuthState, h, not_le.mpr hlt]
  · intro h hge; simp [verifyAuthState, h, hge]

/-- Witness for C3: concrete gate outcomes at no file, age 59 minutes, age
61 minutes, and age exactly 60 minutes. -/
theorem spec_c3_witness :
    verifyAuthState false 0 0 =
      .error "\n\nNo authentication found. Run: ./scripts/run-dast.sh auth\n" ∧
    verifyAuthState true (59 * 60000) 0 = .ok (59 * 60000) ∧
    verifyAuthState true (61 * 60000) 0 =
      .error "\n\nAuthentication expired. Run: ./scripts/run-dast.sh auth\n" ∧
    verifyAuthState true (60 * 60000) 0 =
      .error "\n\nAuthentication expired. Run: ./scripts/run-dast.sh auth\n" :=
  ⟨(spec_c3_auth_gate false 0 0).1 rfl,
   by simpa using (spec_c3_auth_gate true (59 * 60000) 0).2.1 rfl (by decide),
   by simpa using (spec_c3_auth_gate true (61 * 60000) 0).2.2 rfl (by decide),
   by simpa using (spec_c3_auth_gate true (60 * 60000) 0).2.2 rfl (by decide)⟩

/-- C4: a path-traversal attempt whose response has status 200 and a
non-empty body containing `root:x:0:0:` appends exactly one finding, with
severity critical, CWE-22, and url equal to the requested test URL (the
base URL concatenated with the percent-encoded payload); the break in the
pattern loop prevents a second finding even when several patterns match. -/
theorem spec_c4_path_traversal_single_critical (baseUrl payload body : String)
    (rep : List Finding) (oracle : String → Except Unit HttpResp)
    (hresp : oracle (baseUrl ++ encodeURIComponent payload) = .ok ⟨200, body⟩)
    (hroot : containsStr body "root:x:0:0:" = true) (hne : body ≠ "") :
    pathTraversalRunFrom rep [(baseUrl, payload)] oracle =
      rep ++ [{ severity := .critical,
                title := "Path Traversal Vulnerability",
                description := "Sensitive file content accessible via path traversal",
                url := baseUrl ++ encodeURIComponent payload,
                payload := some payload,
                evidence := some "Sensitive content pattern matched: /root:x:0:0:/",
                cwe := some "CWE-22",
                owasp := some "A01:2021 - Broken Access Control",
                recommendation := "Validate file paths against a whitelist and use safe file access methods" }] := by
  have hlen : 0 < body.length := by
    cases body with
    | mk data =>
      cases data with
      | nil => exact absurd rfl hne
      | cons c cs => simp [String.length]
  simp only [pathTraversalRunFrom, hresp]
  rw [pathTraversalAttemptFindings]
  simp only [sensitiveFilePatterns]
  rw [List.find?_cons_of_pos _ (by simpa using hroot)]
  simp [hlen, Nat.pos_iff_ne_zero]

/-- Witness for C4: the concrete scenario of the spec, payload
`../../etc/passwd` against `/?file=`, with a password-file body. -/
theorem spec_c4_witness :
    pathTraversalRunFrom [] [("/?file=", "../../etc/passwd")]
        (fun _ => .ok ⟨200, "root:x:0:0:root:/root:/bin/bash"⟩) =
      [{ severity := .critical,
         title := "Path Traversal Vulnerability",
         description := "Sensitive file content accessible via path traversal",
         url := "/?file=..%2F..%2Fetc%2Fpasswd",
         payload := some "../../etc/passwd",
         evidence := some "Sensitive content pattern matched: /root:x:0:0:/",
         cwe := some "CWE-22",
         owasp := some "A01:2021 - Broken Access Control",
         recommendation := "Validate file paths against a whitelist and use safe file access methods" }] := by
  have h := spec_c4_path_traversal_single_critical "/?file=" "../../etc/passwd"
    "root:x:0:0:root:/root:/bin/bash" []
    (fun _ => .ok ⟨200, "root:x:0:0:root:/root:/bin/bash"⟩) rfl (by decide) (by decide)
  rw [h]
  decide

/-- C5: for every endpoint and every tested origin, a response whose
`access-control-allow-origin` header is exactly `*` makes the CORS probe
append exactly the one high finding titled `Overly Permissive CORS`,
independently of the endpoint. -/
theorem spec_c5_cors_star_high (endpoint origin : String) (acac : Option String)
    (horigin : origin ∈ testOrigins) :
    corsCheckFindings endpoint origin (some "*") acac =
      [{ severity := .high,
         title := "Overly Permissive CORS",
         description := "Access-Control-Allow-Origin header is set to *",
         url := endpoint,
         evidence := some "Access-Control-Allow-Origin: *",
         cwe := some "CWE-942",
         owasp := some "A01:2021 - Broken Access Control",
         recommendation := "Restrict CORS to specific trusted origins" }] := by
  have hne : "*" ≠ origin := by
    simp only [testOrigins, List.mem_cons, List.not_mem_nil, or_false] at horigin
    rcases horigin with rfl | rfl | rfl | rfl <;> decide
  simp [corsCheckFindings, hne]

/-- Witness for C5: the concrete scenario at endpoint `/api/user` and
origin `https://evil.com`. -/
theorem spec_c5_witness :
    corsCheckFindings "/api/user" "https://evil.com" (some "*") none =
      [{ severity := .high,
         title := "Overly Permissive CORS",
         description := "Access-Control-Allow-Origin header is set to *",
         url := "/api/user",
         evidence := some "Access-Control-Allow-Origin: *",
         cwe := some "CWE-942",
         owasp := some "A01:2021 - Broken Access Control",
         recommendation := "Restrict CORS to specific trusted origins" }] :=
  spec_c5_cors_star_high "/api/user" "https://evil.com" none (by decide)

/-- C6: on an HTTPS page, a cookie named `session_id` with `secure=false`,
`httpOnly=false` and `sameSite=None` yields exactly one medium finding
whose evidence lists all three missing protections. -/
theorem spec_c6_cookie_three_issues (pageUrl : String)
    (hhttps : startsWithStr pageUrl "https://" = true) :
    cookieFindings pageUrl ⟨"session_id", false, false, some "None"⟩ =
      [{ severity := .medium,
         title := "Insecure Cookie: session_id",
         description := "Cookie has security issues: Missing Secure flag, Missing HttpOnly flag on sensitive cookie, Missing or lax SameSite attribute",
         url := pageUrl,
         evidence := some "Missing Secure flag; Missing HttpOnly flag on sensitive cookie; Missing or lax SameSite attribute",
         cwe := some "CWE-614",
         owasp := some "A05:2021 - Security Misconfiguration",
         recommendation := "Set Secure, HttpOnly, and SameSite=Strict/Lax flags on cookies" }] := by
  have hsession : containsStr (lowerStr "session_id") "session" = true := by decide
  have hissues : cookieIssues pageUrl ⟨"session_id", false, false, some "None"⟩ =
      ["Missing Secure flag", "Missing HttpOnly flag on sensitive cookie",
       "Missing or lax SameSite attribute"] := by
    simp [cookieIssues, hhttps, hsession, strFalsy]
  simp only [cookieFindings, hissues]
  rfl

/-- Witness for C6: the concrete scenario on page `https://example.com/`. -/
theorem spec_c6_witness :
    cookieFindings "https://example.com/" ⟨"session_id", false, false, some "None"⟩ =
      [{ severity := .medium,
         title := "Insecure Cookie: session_id",
         description := "Cookie has security issues: Missing Secure flag, Missing HttpOnly flag on sensitive cookie, Missing or lax SameSite attribute",
         url := "https://example.com/",
         evidence := some "Missing Secure flag; Missing HttpOnly flag on sensitive cookie; Missing or lax SameSite attribute",
         cwe := some "CWE-614",
         owasp := some "A05:2021 - Security Misconfiguration",
         recommendation := "Set Secure, HttpOnly, and SameSite=Strict/Lax flags on cookies" }] :=
  spec_c6_cookie_three_issues "https://example.com/" (by decide)

/-- C7: `addFinding` appends at the end leaving earlier findings in place,
a fresh reporter driven by any call sequence stores exactly that sequence
(so the length equals the number of calls and nothing is ever removed), and
two identical calls store two separate entries. -/
theorem spec_c7_addFinding_appends (s : DASTReporterState) (f : Finding)
    (calls : List Finding) :
    DASTReporter.getFindings (DASTReporter.addFinding s f) =
      DASTReporter.getFindings s ++ [f] ∧
    DASTReporter.getFindings (DASTReporter.runCalls calls) = calls ∧
    (DASTReporter.runCalls calls).findings.length = calls.length ∧
    DASTReporter.getFindings (DASTReporter.addFinding (DASTReporter.addFinding s f) f) =
      DASTReporter.getFindings s ++ [f, f] := by
  refine ⟨rfl, ?_, ?_, ?_⟩
  · simpa [DASTReporter.runCalls, DASTReporter.new, DASTReporter.getFindings,
      DASTReporter.getFindingsOp] using foldl_addFinding_findings calls DASTReporter.new
  · simp [DASTReporter.runCalls, DASTReporter.new, foldl_addFinding_findings]
  · simp [DASTReporter.getFindings, DASTReporter.getFindingsOp, DASTReporter.addFinding]

/-- C8: a transport error on one attempt appends no finding, leaves the
reporter exactly as before the attempt, and the run continues with the
remaining combinations — for the path-traversal probe's payload loop, for
the upload probe's endpoint/file loop (a thrown POST), and for the upload
probe's inner file-access loop (a thrown GET). -/
theorem spec_c8_transport_error_no_finding
    (baseUrl payload : String) (ptRest : List (String × String)) (ptRep : List Finding)
    (ptOracle : String → Except Unit HttpResp)
    (endpoint : String) (file : MaliciousFile) (boundary : String)
    (upRest : List (String × MaliciousFile × String)) (upRep : List Finding)
    (postOracle : String → String → Except Unit HttpResp)
    (getOracle : String → Except Unit HttpResp)
    (fileUrl : String) (urls : List String)
    (hpt : ptOracle (baseUrl ++ encodeURIComponent payload) = .error ())
    (hpost : postOracle endpoint (multipartBody boundary file) = .error ())
    (hget : getOracle fileUrl = .error ()) :
    pathTraversalRunFrom ptRep ((baseUrl, payload) :: ptRest) ptOracle =
      pathTraversalRunFrom ptRep ptRest ptOracle ∧
    uploadRunFrom upRep ((endpoint, file, boundary) :: upRest) postOracle getOracle =
      uploadRunFrom upRep upRest postOracle getOracle ∧
    uploadFileAccessFindings endpoint file getOracle (fileUrl :: urls) =
      uploadFileAccessFindings endpoint file getOracle urls := by
  refine ⟨?_, ?_, ?_⟩
  · simp only [pathTraversalRunFrom, hpt]
  · simp only [uploadRunFrom, hpost]
  · simp only [uploadFileAccessFindings, hget, List.nil_append]

/-- Witness for C8: runs of both probes in which every request throws
produce no finding at all. -/
theorem spec_c8_witness :
    pathTraversalRunFrom [] [("/?file=", "../../etc/passwd")] (fun _ => .error ()) = [] ∧
    uploadRunFrom []
        [("/upload", ⟨"shell.php", "<?php system($_GET[\"cmd\"]); ?>",
          "application/x-php", .critical⟩, "b1")]
        (fun _ _ => .error ()) (fun _ => .error ()) = [] ∧
    uploadFileAccessFindings "/upload"
        ⟨"shell.php", "<?php system($_GET[\"cmd\"]); ?>", "application/x-php", .critical⟩
        (fun _ => .error ()) ["/uploads/shell.php"] = [] := by
  have h := spec_c8_transport_error_no_finding "/?file=" "../../etc/passwd" [] []
    (fun _ => .error ()) "/upload"
    ⟨"shell.php", "<?php system($_GET[\"cmd\"]); ?>", "application/x-php", .critical⟩
    "b1" [] [] (fun _ _ => .error ()) (fun _ => .error ()) "/uploads/shell.php" []
    rfl rfl rfl
  exact ⟨h.1.trans rfl, h.2.1.trans rfl, h.2.2.trans rfl⟩

/-- C9: for every reachable reporter state, `hasFindings()` is true exactly
when `getFindings()` is non-empty, equivalently exactly when at least one
`addFinding` call was made. -/
theorem spec_c9_hasFindings_iff (s : DASTReporterState) (calls : List Finding) :
    (DASTReporter.hasFindings s = true ↔ 0 < (DASTReporter.getFindings s).length) ∧
    (DASTReporter.hasFindings (DASTReporter.runCalls calls) = true ↔ calls ≠ []) := by
  constructor
  · simp [DASTReporter.hasFindings, DASTReporter.hasFindingsOp, DASTReporter.getFindings,
      DASTReporter.getFindingsOp]
  · simp [DASTReporter.hasFindings, DASTReporter.hasFindingsOp, DASTReporter.runCalls,
      DASTReporter.new, foldl_addFinding_findings, List.length_pos]

/-- Witness for C9: after one call, `hasFindings()` is true. -/
theorem spec_c9_witness :
    DASTReporter.hasFindings (DASTReporter.runCalls [exFindingA]) = true :=
  (spec_c9_hasFindings_iff DASTReporter.new [exFindingA]).2.mpr (by decide)

/-- C10: the four query operations return the reporter state unchanged, so
two `getFindings()` calls with no intervening `addFinding` return equal
sequences. -/
theorem spec_c10_queries_pure (s : DASTReporterState) (sev : Severity) :
    (DASTReporter.getFindingsOp s).2 = s ∧
    (DASTReporter.getFindingsBySeverityOp s sev).2 = s ∧
    (DASTReporter.hasFindingsOp s).2 = s ∧
    (DASTReporter.generateSummaryOp s).2 = s ∧
    (DASTReporter.getFindingsOp (DASTReporter.getFindingsOp s).2).1 =
      (DASTReporter.getFindingsOp s).1 :=
  ⟨rfl, rfl, rfl, rfl, rfl⟩
